import Mathlib

/-!
Verification development for the campaign workflow orchestrator of the
brainrot/short-video generator frontend.

The definitions below are a shallow embedding of the TypeScript sources:

* `frontend/src/lib/types.ts` — the data model (`HighlightSegment`,
  `JobStreamUpdate`, request/response shapes, `AppState`, `AppStep`);
* `frontend/src/components/StepContainer.tsx` — the `StepContainer`
  orchestrator (stage state and its transition handlers) and the
  `JobStatusStream` component, whose `useEffect` implements the
  stream supervisor (connect, retry with growing delay, cleanup);
* `frontend/src/components/URLSubmitForm.tsx`,
  `HighlightsSelector.tsx`, `UploadReelsForm.tsx`,
  `DMFollowersForm.tsx` — the per-stage forms (trigger guards, the
  upload title derivation, the upload request construction).

React state updates (`setState (prev => ...)`) are modelled as pure
functions on the state record; component mount conditions become
enabledness conditions of events; the `EventSource` lifecycle inside
`JobStatusStream`'s effect becomes an explicit small-step machine.
-/

namespace Yapper

/-! ## Data model (frontend/src/lib/types.ts) -/

/-- Highlight segment returned by the extraction endpoint
(`HighlightSegment` in types.ts). -/
structure HighlightSegment where
  id_ : String
  start_time : String
  end_time : String
  title : String
deriving DecidableEq

/-- Job status tags (`"queued" | "downloading" | "generating" | "finished" | "error"`). -/
inductive JobStatus
  | queued
  | downloading
  | generating
  | finished
  | error
deriving DecidableEq

/-- Response of the `/highlights` endpoint (`HighlightsResponse`). -/
structure HighlightsResponse where
  video_id : String
  highlights : List HighlightSegment
  total_count : Nat
deriving DecidableEq

/-- Response of the `/generate` endpoint (`GenerateVideoResponse`). -/
structure GenerateVideoResponse where
  job_id : String
  status : JobStatus
  message : String
deriving DecidableEq

/-- One parsed server-push event (`JobStreamUpdate` in types.ts). -/
structure JobStreamUpdate where
  job_id : String
  status : JobStatus
  progress : Option Nat
  current_task : Option String
  finished_videos : List String
  error_message : Option String
  created_at : String
  updated_at : String
deriving DecidableEq

/-- One entry of the upload request (`ReelUploadRequest`). -/
structure ReelUploadRequest where
  file_path : String
  title : String
deriving DecidableEq

/-- Response of the upload endpoint (`UploadReelsResponse`). -/
structure UploadReelsResponse where
  reel_links : List String
deriving DecidableEq

/-- The ordered pipeline stages (`AppStep` in types.ts). -/
inductive AppStep
  | urlSubmit
  | highlightsSelect
  | jobStatus
  | uploadReels
  | dmFollowers
  | complete
deriving DecidableEq

/-- The orchestrator's aggregate state (`AppState` in StepContainer.tsx). -/
structure AppState where
  currentStep : AppStep
  highlights : List HighlightSegment
  selectedHighlights : List HighlightSegment
  videoUrl : String
  language : String
  noAutoSubs : Bool
  jobId : Option String
  finishedVideos : List String
  reelLinks : List String
deriving DecidableEq

/-- Initial orchestrator state (the `useState` initialiser in `StepContainer`). -/
def initialAppState : AppState :=
  { currentStep := .urlSubmit
    highlights := []
    selectedHighlights := []
    videoUrl := ""
    language := "en"
    noAutoSubs := false
    jobId := none
    finishedVideos := []
    reelLinks := [] }

/-! ## Remote call outcomes

A single-shot remote call either succeeds with a parsed response or
fails; the catch blocks of the handlers distinguish an `APIError`
(typed non-success response), a generic `Error` (network failure), and
anything else. -/

/-- Outcome of one single-shot remote call, mirroring the
`try`/`catch (err instanceof APIError | Error | _)` shape of the handlers. -/
inductive CallOutcome (α : Type)
  | success (value : α)
  | apiFailure (status : Nat) (message : String)
  | networkFailure (message : String)
  | unknownFailure
deriving DecidableEq

/-- True for the three failure shapes of `CallOutcome`. -/
def CallOutcome.isFailure {α : Type} : CallOutcome α → Bool
  | .success _ => false
  | _ => true

/-! ## StepContainer transition handlers (StepContainer.tsx)

Each `useCallback` handler that calls `setState (prev => ...)` is a
pure function from the previous state to the next state. -/

/-- `handleHighlightsSuccess`: store extraction results, move to
highlights-select. Note it does not touch `selectedHighlights`. -/
def handleHighlightsSuccess (s : AppState) (highlights : List HighlightSegment)
    (videoUrl language : String) (noAutoSubs : Bool) : AppState :=
  { s with currentStep := .highlightsSelect
           highlights := highlights
           videoUrl := videoUrl
           language := language
           noAutoSubs := noAutoSubs }

/-- `handleBackToUrl`: back-navigation from highlights-select. -/
def handleBackToUrl (s : AppState) : AppState :=
  { s with currentStep := .urlSubmit, jobId := none }

/-- Success branch of `handleGenerateVideos`: store the committed selection
and the new job id, move to job-status. -/
def handleGenerateVideosSuccess (s : AppState)
    (selectedHighlights : List HighlightSegment) (jobId : String) : AppState :=
  { s with currentStep := .jobStatus
           selectedHighlights := selectedHighlights
           jobId := some jobId }

/-- `handleGenerateVideos` in full: on success it transitions, on any
failure it leaves the state unchanged and surfaces one error string
(the `setError` argument). -/
def handleGenerateVideosResult (s : AppState)
    (selectedHighlights : List HighlightSegment)
    (r : CallOutcome GenerateVideoResponse) : AppState × Option String :=
  match r with
  | .success resp => (handleGenerateVideosSuccess s selectedHighlights resp.job_id, none)
  | .apiFailure _ m => (s, some ("Failed to start video generation: " ++ m))
  | .networkFailure m => (s, some ("Failed to start video generation: " ++ m))
  | .unknownFailure => (s, some "An unexpected error occurred while starting video generation.")

/-- `URLSubmitForm.handleSubmit`'s call outcome: on success it invokes
`onSuccess` (= `handleHighlightsSuccess`), on failure the orchestrator
state is untouched and one error string is shown. -/
def handleSubmitResult (s : AppState) (videoUrl language : String)
    (noAutoSubs : Bool) (r : CallOutcome HighlightsResponse) : AppState × Option String :=
  match r with
  | .success resp => (handleHighlightsSuccess s resp.highlights videoUrl language noAutoSubs, none)
  | .apiFailure _ m => (s, some ("Failed to extract highlights: " ++ m))
  | .networkFailure m => (s, some ("Failed to extract highlights: " ++ m))
  | .unknownFailure => (s, some "An unexpected error occurred. Please try again.")

/-- `handleBackToHighlights`: back-navigation from job-status. -/
def handleBackToHighlights (s : AppState) : AppState :=
  { s with currentStep := .highlightsSelect, jobId := none }

/-- `handleRestart`: same body as `handleBackToHighlights` in the source. -/
def handleRestart (s : AppState) : AppState :=
  { s with currentStep := .highlightsSelect, jobId := none }

/-- `handleJobComplete`: store the finished video paths, move to upload-reels. -/
def handleJobComplete (s : AppState) (finishedVideos : List String) : AppState :=
  { s with currentStep := .uploadReels, finishedVideos := finishedVideos }

/-- `handleBackToJobStatus`: back-navigation from upload-reels; only the
current step changes. -/
def handleBackToJobStatus (s : AppState) : AppState :=
  { s with currentStep := .jobStatus }

/-- `UploadReelsForm.handleUpload` outcome seen by the orchestrator: on
success `onSuccess` stores the reel links and moves to dm-followers,
on failure the orchestrator state is untouched and one error string is
shown inside the form. -/
def handleUploadSuccess (s : AppState) (reelLinks : List String) : AppState :=
  { s with currentStep := .dmFollowers, reelLinks := reelLinks }

/-- The upload call with its failure branches (`UploadReelsForm.handleUpload`). -/
def handleUploadResult (s : AppState)
    (r : CallOutcome UploadReelsResponse) : AppState × Option String :=
  match r with
  | .success resp => (handleUploadSuccess s resp.reel_links, none)
  | .apiFailure _ m => (s, some ("Failed to upload videos: " ++ m))
  | .networkFailure m => (s, some ("Failed to upload videos: " ++ m))
  | .unknownFailure => (s, some "An unexpected error occurred while uploading videos.")

/-- `handleBackToUpload`: back-navigation from dm-followers. -/
def handleBackToUpload (s : AppState) : AppState :=
  { s with currentStep := .uploadReels }

/-- `handleCampaignComplete`: user acknowledges distribution results. -/
def handleCampaignComplete (s : AppState) : AppState :=
  { s with currentStep := .complete }

/-- `handleStartNewCampaign`: full reset of the campaign state. -/
def handleStartNewCampaign (_s : AppState) : AppState :=
  initialAppState

/-- JSX truthiness of the job id (`state.jobId &&` renders the stream
component only for a non-null, non-empty id). -/
def jobTruthy : Option String → Bool
  | some j => !(j == "")
  | none => false

/-! ## Orchestrator events and reachability

The handlers can only fire while the component that invokes them is
mounted; the mount conditions come from the step-content JSX of
`StepContainer`. An event whose mount condition fails leaves the state
unchanged. -/

/-- User/network events that drive the `StepContainer` state machine. -/
inductive OrchEv
  | highlightsSuccess (highlights : List HighlightSegment)
      (videoUrl language : String) (noAutoSubs : Bool)
  | backToUrl
  | generateSuccess (selectedIds : List String) (jobId : String)
  | backToHighlights
  | restart
  | jobComplete (finishedVideos : List String)
  | backToJobStatus
  | uploadSuccess (reelLinks : List String)
  | backToUpload
  | campaignComplete
  | startNewCampaign

/-- One orchestrator step: apply the handler when its component is
mounted, otherwise do nothing. The selection passed to
`handleGenerateVideos` is computed exactly as in
`HighlightsSelector.handleGenerate`:
`highlights.filter (h => selectedIds.has(h.id_))`. -/
def applyEvent (s : AppState) : OrchEv → AppState
  | .highlightsSuccess hs u l n =>
      if s.currentStep = .urlSubmit then handleHighlightsSuccess s hs u l n else s
  | .backToUrl =>
      if s.currentStep = .highlightsSelect then handleBackToUrl s else s
  | .generateSuccess ids jid =>
      if s.currentStep = .highlightsSelect then
        handleGenerateVideosSuccess s
          (s.highlights.filter (fun h => ids.contains h.id_)) jid
      else s
  | .backToHighlights =>
      if s.currentStep = .jobStatus ∧ jobTruthy s.jobId = true then
        handleBackToHighlights s
      else s
  | .restart =>
      if s.currentStep = .jobStatus ∧ jobTruthy s.jobId = true then
        handleRestart s
      else s
  | .jobComplete vs =>
      if s.currentStep = .jobStatus ∧ jobTruthy s.jobId = true then
        handleJobComplete s vs
      else s
  | .backToJobStatus =>
      if s.currentStep = .uploadReels then handleBackToJobStatus s else s
  | .uploadSuccess links =>
      if s.currentStep = .uploadReels then handleUploadSuccess s links else s
  | .backToUpload =>
      if s.currentStep = .dmFollowers then handleBackToUpload s else s
  | .campaignComplete =>
      if s.currentStep = .dmFollowers then handleCampaignComplete s else s
  | .startNewCampaign =>
      if s.currentStep = .complete then handleStartNewCampaign s else s

/-- Run a sequence of orchestrator events. -/
def runOrch (s : AppState) (evs : List OrchEv) : AppState :=
  evs.foldl applyEvent s

/-- Lifecycle of one `EventSource` connection. -/
inductive ConnStatus
  | connecting
  | opened
  | closed
deriving DecidableEq

/-- State of one mounted `JobStatusStream` effect. `deliveries` records
each fired `onmessage` handler as (connection index, whether the effect
had already been cleaned up when it fired); `scheduledDelays` records
each reconnection delay passed to `setTimeout`; `releases` counts
cleanup invocations. -/
structure StreamState where
  retryCount : Nat
  conns : List ConnStatus
  pendingDelay : Option Nat
  released : Bool
  terminalErrors : Nat
  scheduledDelays : List Nat
  deliveries : List (Nat × Bool)
  releases : Nat
deriving DecidableEq

/-- `maxRetries = 3` in the effect. -/
def maxRetries : Nat := 3

/-- The backoff unit: `setTimeout(..., 2000 * retryCount)`. -/
def backoffUnitMs : Nat := 2000

/-- Effect state right after mount: `connectToStream()` has created the
first (captured) connection. -/
def streamMountInit : StreamState :=
  { retryCount := 0
    conns := [.connecting]
    pendingDelay := none
    released := false
    terminalErrors := 0
    scheduledDelays := []
    deliveries := []
    releases := 0 }

/-- Status of connection `i`, if it exists. -/
def connAt (s : StreamState) (i : Nat) : Option ConnStatus :=
  s.conns.get? i

/-- Events observable by the effect: a connection's open acknowledgment,
a message on a connection, a connection-level error, the retry timer
firing, and the React effect cleanup (the release of the handle). -/
inductive StreamEv
  | connOpened (i : Nat)
  | connMessage (i : Nat)
  | connError (i : Nat)
  | timerFire
  | cleanup

/-- One step of the effect. Handler events fire only on a connection that
has not been closed (`EventSource` semantics); a disabled event leaves
the state unchanged.

* `connOpened`: `es.onopen` — `retryCount = 0`.
* `connMessage`: `es.onmessage` — the update is delivered (recorded
  together with the current `released` flag).
* `connError`: `es.onerror` — `es.close()`; then either schedule a
  reconnection after `2000 * retryCount` ms (retry counter already
  incremented) or report the terminal stream error.
* `timerFire`: the scheduled `connectToStream()` runs and creates a new
  connection.
* `cleanup`: `clearTimeout(retryTimeout); eventSource.close()` — note it
  closes only connection 0, the one captured at mount. -/
def streamStep (s : StreamState) : StreamEv → StreamState
  | .connOpened i =>
      if connAt s i = some .connecting then
        { s with conns := s.conns.set i .opened, retryCount := 0 }
      else s
  | .connMessage i =>
      if connAt s i = some .opened then
        { s with deliveries := s.deliveries ++ [(i, s.released)] }
      else s
  | .connError i =>
      if connAt s i = some .connecting ∨ connAt s i = some .opened then
        if s.retryCount < maxRetries then
          { s with conns := s.conns.set i .closed
                   retryCount := s.retryCount + 1
                   pendingDelay := some (backoffUnitMs * (s.retryCount + 1))
                   scheduledDelays := s.scheduledDelays ++ [backoffUnitMs * (s.retryCount + 1)] }
        else
          { s with conns := s.conns.set i .closed
                   terminalErrors := s.terminalErrors + 1 }
      else s
  | .timerFire =>
      if s.pendingDelay.isSome then
        { s with pendingDelay := none, conns := s.conns ++ [.connecting] }
      else s
  | .cleanup =>
      { s with pendingDelay := none
               conns := s.conns.set 0 .closed
               released := true
               releases := s.releases + 1 }

/-- Run a sequence of stream events. -/
def runStream (s : StreamState) (evs : List StreamEv) : StreamState :=
  evs.foldl streamStep s

/-- A halted supervisor: every connection closed, no pending timer. -/
def streamHalted (s : StreamState) : Bool :=
  s.conns.all (fun c => c == ConnStatus.closed) && s.pendingDelay.isNone

/-- Did any message handler fire after the effect cleanup ran? -/
def deliveredAfterRelease (s : StreamState) : Bool :=
  s.deliveries.any (fun d => d.2)

/-- The trace exhibiting the post-release delivery: the first connection
fails, the retry timer fires and reconnects, the reconnection opens,
the effect is cleaned up (stage left), then a message arrives on the
still-open reconnected connection. -/
def leakTrace : List StreamEv :=
  [.connError 0, .timerFire, .connOpened 1, .cleanup, .connMessage 1]

/-- The defended trace: cleanup happens while only the reconnection
timer is in flight; the timer is cleared, so nothing fires afterwards. -/
def timerClearedTrace : List StreamEv :=
  [.connError 0, .cleanup, .timerFire, .connMessage 1]

/-- Four consecutive connection failures: the initial connection and
each of the three retries fail. -/
def fourFailTrace : List StreamEv :=
  [.connError 0, .timerFire, .connError 1, .timerFire,
   .connError 2, .timerFire, .connError 3]

/-- Three consecutive failures (the retries are scheduled with growing
delays). -/
def threeFailTrace : List StreamEv :=
  [.connError 0, .timerFire, .connError 1, .timerFire, .connError 2]

/-! ## Job-status session (orchestrator + mounted stream, for the
completion scenario)

While the orchestrator sits in job-status with a truthy job id, the
`JobStatusStream` component is mounted: it holds the latest delivered
update in its `status` state and offers the "Continue to Upload" action
exactly when the job has finished with at least one video. Continuing
invokes `onComplete(status.finished_videos)` (= `handleJobComplete`) and
unmounts the component, which runs the effect cleanup once. -/

/-- Orchestrator state + mounted stream effect + the component's
`status` state. -/
structure JobStatusSession where
  app : AppState
  stream : StreamState
  status : Option JobStreamUpdate
deriving DecidableEq

/-- Mount condition of `JobStatusStream` in `StepContainer`'s JSX. -/
def sessionMounted (s : JobStatusSession) : Bool :=
  (s.app.currentStep == .jobStatus) && jobTruthy s.app.jobId

/-- Render condition of the "Continue to Upload" button:
`status.status === "finished" && status.finished_videos.length > 0 && onComplete`. -/
def continueEnabled (s : JobStatusSession) : Bool :=
  sessionMounted s &&
    match s.status with
    | some u => (u.status == JobStatus.finished) && !u.finished_videos.isEmpty
    | none => false

/-- Session events: a status update delivered on stream connection `i`,
and the user clicking "Continue to Upload". -/
inductive SessionEv
  | deliver (i : Nat) (u : JobStreamUpdate)
  | continueToUpload

/-- One session step. A delivered update replaces the held snapshot
(`setStatus(data)`); continuing applies `handleJobComplete` with the
held update's video list and runs the effect cleanup (unmount). -/
def sessionStep (s : JobStatusSession) : SessionEv → JobStatusSession
  | .deliver i u =>
      if sessionMounted s && (connAt s.stream i == some .opened) then
        { s with stream := streamStep s.stream (.connMessage i), status := some u }
      else s
  | .continueToUpload =>
      if continueEnabled s then
        match s.status with
        | some u =>
            { app := handleJobComplete s.app u.finished_videos
              stream := streamStep s.stream .cleanup
              status := s.status }
        | none => s
      else s

/-- Run a sequence of session events. -/
def runSession (s : JobStatusSession) (evs : List SessionEv) : JobStatusSession :=
  evs.foldl sessionStep s

/-! ## Entering job-status mounts the stream component

`StepContainer` renders `JobStatusStream` whenever
`currentStep === "job-status" && state.jobId`; mounting runs the effect,
whose first statement (after the `if (!jobId) return`) is
`connectToStream()`, opening one new `EventSource` for the job id. -/

/-- Mount condition of `JobStatusStream` for a bare orchestrator state. -/
def jobStatusStreamMounted (s : AppState) : Bool :=
  (s.currentStep == .jobStatus) && jobTruthy s.jobId

/-- Number of stream connections opened as a consequence of rendering
state `s`: mounting the component opens the single mount-time
connection of `streamMountInit`. -/
def connectionsOpenedOnEntry (s : AppState) : Nat :=
  if jobStatusStreamMounted s then streamMountInit.conns.length else 0

/-! ## Per-stage trigger guards (C6)

`URLSubmitForm` disables its submit controls with `disabled={loading}`,
`UploadReelsForm` with `disabled={loading}`, `DMFollowersForm` with
`disabled={sendingDMs}`; in each, the click handler sets the flag before
issuing the call and the `finally` block clears it. `HighlightsSelector`
has no such flag: its generate button is never disabled and
`handleGenerateVideos` in `StepContainer` has no in-flight guard. -/

/-- Loading flag plus the number of unresolved remote calls. -/
structure CallCtl where
  loading : Bool
  inFlight : Nat
deriving DecidableEq

/-- Initial control state of each form. -/
def ctlInit : CallCtl := { loading := false, inFlight := 0 }

/-- Trigger and resolution (success or failure) of the stage's call. -/
inductive CallEv
  | trigger
  | resolve

/-- A guarded trigger: the button is disabled while `loading`, so the
handler cannot run; when it runs it sets `loading` and issues the call. -/
def guardedTrigger (s : CallCtl) : CallCtl :=
  if s.loading then s else { loading := true, inFlight := s.inFlight + 1 }

/-- The `finally` block: the call resolves and `loading` is cleared. -/
def ctlResolve (s : CallCtl) : CallCtl :=
  if s.inFlight = 0 then s else { loading := false, inFlight := s.inFlight - 1 }

/-- Step function of the guarded forms (url-submit, upload-reels,
dm-followers). -/
def guardedStep (s : CallCtl) : CallEv → CallCtl
  | .trigger => guardedTrigger s
  | .resolve => ctlResolve s

/-- The highlights-select generate trigger: no disabled state and no
guard in the handler — every click issues a call. -/
def generateTrigger (s : CallCtl) : CallCtl :=
  { s with inFlight := s.inFlight + 1 }

/-- Step function of the generation trigger. -/
def generateStep (s : CallCtl) : CallEv → CallCtl
  | .trigger => generateTrigger s
  | .resolve => ctlResolve s

/-- Run a sequence of control events under a given step function. -/
def runCtl (step : CallCtl → CallEv → CallCtl) (s : CallCtl)
    (evs : List CallEv) : CallCtl :=
  evs.foldl step s

/-! ## Upload title derivation (UploadReelsForm.tsx, initial `titles` state)

The source computes, for each finished video path:

```
const filename = path.split('/').pop()?.replace('.mp4', '') || '';
const highlightId = filename.replace(/^out_/, '');
const highlightTitle = highlightTitles.get(highlightId);   // Map of id -> title
if (highlightTitle) { title = highlightTitle }
else {
  const cleanTitle = filename.replace(/^out_/, '').replace(/_/g, ' ');
  title = cleanTitle.charAt(0).toUpperCase() + cleanTitle.slice(1);
}
```

JavaScript `String.replace` with a string pattern replaces the FIRST
occurrence anywhere in the string, not specifically a suffix. The
string operations are modelled on `List Char`. -/

/-- The characters of the pattern `".mp4"`. -/
def mp4Chars : List Char := ['.', 'm', 'p', '4']

/-- The characters of the marker `"out_"`. -/
def outMarker : List Char := ['o', 'u', 't', '_']

/-- JavaScript `s.replace(pat, rep)` with a plain-string pattern:
replace the first occurrence of `pat`, leave `s` unchanged if `pat`
does not occur. -/
def jsReplaceFirst (pat rep : List Char) : List Char → List Char
  | [] => if pat.isEmpty then rep else []
  | c :: t =>
      if pat.isPrefixOf (c :: t) then rep ++ (c :: t).drop pat.length
      else c :: jsReplaceFirst pat rep t

/-- JavaScript `s.replace(/^out_/, '')`: strip a leading `"out_"`. -/
def stripOutMarker (l : List Char) : List Char :=
  if outMarker.isPrefixOf l then l.drop 4 else l

/-- JavaScript `s.replace(/_/g, ' ')`: every underscore becomes a space. -/
def underscoresToSpaces (l : List Char) : List Char :=
  l.map (fun c => if c = '_' then ' ' else c)

/-- JavaScript `s.charAt(0).toUpperCase() + s.slice(1)`. -/
def capitalizeFirst : List Char → List Char
  | [] => []
  | c :: t => c.toUpper :: t

/-- JavaScript `path.split('/')` (accumulator holds the current field
reversed). -/
def splitSlashAux : List Char → List Char → List (List Char)
  | [], acc => [acc.reverse]
  | c :: t, acc =>
      if c = '/' then acc.reverse :: splitSlashAux t []
      else splitSlashAux t (c :: acc)

/-- JavaScript `path.split('/').pop() || ''`. -/
def basenameChars (path : List Char) : List Char :=
  (splitSlashAux path []).getLastD []

/-- `new Map(selectedHighlights.map(h => [h.id_, h.title])).get(id)`:
with duplicate ids the later entry wins, hence the search over the
reversed list. -/
def highlightTitleFor (selectedHighlights : List HighlightSegment)
    (highlightId : String) : Option String :=
  (selectedHighlights.reverse.find? (fun h => h.id_ == highlightId)).map
    (fun h => h.title)

/-- The initial upload title the source computes for `path`. The lookup
result is used through JavaScript truthiness — `if (highlightTitle)` —
so a matched highlight whose title is the empty string (falsy) takes
the cleaned-filename fallback, exactly like a missing match. -/
def initialTitleFor (selectedHighlights : List HighlightSegment)
    (path : String) : String :=
  let filename := jsReplaceFirst mp4Chars [] (basenameChars path.toList)
  let highlightId := stripOutMarker filename
  let fallback := String.mk (capitalizeFirst (underscoresToSpaces (stripOutMarker filename)))
  match highlightTitleFor selectedHighlights (String.mk highlightId) with
  | some t => if t == "" then fallback else t
  | none => fallback

/-- Removing the `".mp4"` SUFFIX (and only the suffix), following the
claim's wording for the filename convention. -/
def stripSuffixMp4 (l : List Char) : List Char :=
  if 4 ≤ l.length ∧ l.drop (l.length - 4) = mp4Chars then l.take (l.length - 4)
  else l

/-- The title rule exactly as the claim states it: the `".mp4"` suffix
is stripped (not the first occurrence removed), and on a match the
highlight's title is the initial title unconditionally (no truthiness
proviso). -/
def specInitialTitleFor (selectedHighlights : List HighlightSegment)
    (path : String) : String :=
  let filename := stripSuffixMp4 (basenameChars path.toList)
  let highlightId := stripOutMarker filename
  match highlightTitleFor selectedHighlights (String.mk highlightId) with
  | some t => t
  | none => String.mk (capitalizeFirst (underscoresToSpaces (stripOutMarker filename)))

/-- The title rule as amended: the `".mp4"` suffix is stripped, and on a
match the highlight's title is used only when it is non-empty — an
empty matched title takes the cleaned-filename fallback, mirroring the
source's truthiness check. -/
def specAmendedTitleFor (selectedHighlights : List HighlightSegment)
    (path : String) : String :=
  let filename := stripSuffixMp4 (basenameChars path.toList)
  let highlightId := stripOutMarker filename
  let fallback := String.mk (capitalizeFirst (underscoresToSpaces (stripOutMarker filename)))
  match highlightTitleFor selectedHighlights (String.mk highlightId) with
  | some t => if t == "" then fallback else t
  | none => fallback

/-- Holds when the first occurrence of `".mp4"` in the name, if there is
one, sits at the very end (so removing the first occurrence and
stripping the suffix agree). -/
def onlyTerminalMp4 : List Char → Bool
  | [] => true
  | c :: t =>
      if mp4Chars.isPrefixOf (c :: t) then t.length == 3
      else onlyTerminalMp4 t

/-! ## Upload form state and request construction (UploadReelsForm.tsx)

`selectedVideos` starts as the set of all finished videos and is only
ever toggled over rendered rows; `titles` maps a path to its edited
title. The form early-returns (no upload button at all) when
`finishedVideos.length === 0`; the upload button is only rendered when
`selectedVideos.size > 0` and is `disabled={loading}`. `handleUpload`
builds `reels_to_upload` from the selected paths with
`title: titles[videoPath] || "Generated Short"`. -/

/-- The state of `UploadReelsForm` relevant to the upload request. -/
structure UploadFormState where
  finishedVideos : List String
  selectedVideos : List String
  titles : List (String × String)
  loading : Bool
deriving DecidableEq

/-- JavaScript object lookup `titles[path]` (later assignments win). -/
def titlesGet (ts : List (String × String)) (k : String) : Option String :=
  (ts.reverse.find? (fun p => p.1 == k)).map (fun p => p.2)

/-- The upload button exists in the rendered tree: some finished videos
and a non-empty selection. -/
def uploadButtonVisible (s : UploadFormState) : Bool :=
  !s.finishedVideos.isEmpty && !s.selectedVideos.isEmpty

/-- The upload action can actually be triggered (button rendered and not
disabled). -/
def uploadButtonEnabled (s : UploadFormState) : Bool :=
  uploadButtonVisible s && !s.loading

/-- The `reels_to_upload` list `handleUpload` sends:
`title: titles[videoPath] || "Generated Short"` (JS `||` falls back on
`undefined` and on the empty string). -/
def reelsToUpload (s : UploadFormState) : List ReelUploadRequest :=
  s.selectedVideos.map (fun p =>
    { file_path := p
      title :=
        match titlesGet s.titles p with
        | some t => if t == "" then "Generated Short" else t
        | none => "Generated Short" })

/-! ## Concrete example states shared by witnesses and counterexamples -/

/-- The sample highlight of the spec's scenario. -/
def hookSeg : HighlightSegment :=
  { id_ := "h1", start_time := "00:00:10,000", end_time := "00:01:00,000",
    title := "Hook" }

/-- A selected highlight whose title is the empty string (falsy in
JavaScript). -/
def emptyTitleSeg : HighlightSegment :=
  { id_ := "h1", start_time := "00:00:10,000", end_time := "00:01:00,000",
    title := "" }

/-- Orchestrator state at job-status after the spec's scenario run. -/
def appAtJobStatusEx : AppState :=
  runOrch initialAppState
    [.highlightsSuccess [hookSeg] "https://www.youtube.com/watch?v=v1" "en" false,
     .generateSuccess ["h1"] "j1"]

/-- Orchestrator state at upload-reels after the job completed. -/
def appAtUploadReelsEx : AppState :=
  runOrch appAtJobStatusEx [.jobComplete ["out/a.mp4"]]

/-- Session at job-status with the stream's first connection open. -/
def sessionStartEx : JobStatusSession :=
  { app := appAtJobStatusEx
    stream := streamStep streamMountInit (.connOpened 0)
    status := none }

/-- The spec scenario's progress update. -/
def genUpdate : JobStreamUpdate :=
  { job_id := "j1", status := .generating, progress := some 40,
    current_task := none, finished_videos := [], error_message := none,
    created_at := "t0", updated_at := "t1" }

/-- The spec scenario's terminal success update. -/
def finUpdate : JobStreamUpdate :=
  { job_id := "j1", status := .finished, progress := none,
    current_task := none, finished_videos := ["out/a.mp4"],
    error_message := none, created_at := "t0", updated_at := "t2" }

/-- The spec scenario's session trace. -/
def completionTrace : List SessionEv :=
  [.deliver 0 genUpdate, .deliver 0 finUpdate, .continueToUpload]

/-- Upload form example: one finished video whose edited title is empty. -/
def uploadFormEx : UploadFormState :=
  { finishedVideos := ["out/out_h1.mp4"]
    selectedVideos := ["out/out_h1.mp4"]
    titles := [("out/out_h1.mp4", "")]
    loading := false }

/-! ## Helper lemmas -/

/-- A boolean list prefix decomposes the larger list. -/
theorem prefix_append_drop {l1 l2 : List Char} (h : l1.isPrefixOf l2 = true) :
    l2 = l1 ++ l2.drop l1.length := by
  induction l1 generalizing l2 with
  | nil => simp
  | cons a as ih =>
    cases l2 with
    | nil => simp [List.isPrefixOf] at h
    | cons b bs =>
      simp only [List.isPrefixOf, Bool.and_eq_true, beq_iff_eq] at h
      obtain ⟨hab, hpre⟩ := h
      subst hab
      simpa using ih hpre

/-- Where the first `".mp4"` occurrence sits at the end of the name,
removing the first occurrence and stripping the suffix agree. -/
theorem replaceFirst_eq_stripSuffixMp4 {l : List Char}
    (h : onlyTerminalMp4 l = true) :
    jsReplaceFirst mp4Chars [] l = stripSuffixMp4 l := by
  induction l with
  | nil => decide
  | cons c t ih =>
    by_cases hp : mp4Chars.isPrefixOf (c :: t) = true
    · have hlen : t.length = 3 := by
        unfold onlyTerminalMp4 at h
        rw [if_pos hp] at h
        simpa using h
      have hdropnil : (c :: t).drop mp4Chars.length = [] := by
        apply List.drop_eq_nil_iff.mpr
        simp [hlen, mp4Chars]
      have heq : c :: t = mp4Chars := by
        have hd := prefix_append_drop hp
        rwa [hdropnil, List.append_nil] at hd
      rw [heq]
      decide
    · have ht : onlyTerminalMp4 t = true := by
        unfold onlyTerminalMp4 at h
        rwa [if_neg hp] at h
      have hstep : jsReplaceFirst mp4Chars [] (c :: t)
          = c :: jsReplaceFirst mp4Chars [] t := by
        simp only [jsReplaceFirst, if_neg hp]
      rw [hstep, ih ht]
      unfold stripSuffixMp4
      by_cases hc : 4 ≤ (c :: t).length ∧ (c :: t).drop ((c :: t).length - 4) = mp4Chars
      · have hlen5 : 5 ≤ (c :: t).length := by
          rcases Nat.eq_or_lt_of_le hc.1 with he | hl
          · exfalso
            have hz : (c :: t).length - 4 = 0 := by omega
            have hwhole : c :: t = mp4Chars := by
              have := hc.2
              rwa [hz, List.drop_zero] at this
            rw [hwhole] at hp
            exact hp (by decide)
          · exact hl
        have htlen : 4 ≤ t.length := by
          simp only [List.length_cons] at hlen5
          omega
        have hidx : (c :: t).length - 4 = (t.length - 4) + 1 := by
          simp only [List.length_cons]
          omega
        have hdrop : t.drop (t.length - 4) = mp4Chars := by
          have h2 := hc.2
          rwa [hidx, List.drop_succ_cons] at h2
        rw [if_pos (⟨htlen, hdrop⟩ : 4 ≤ t.length ∧ t.drop (t.length - 4) = mp4Chars),
            if_pos hc, hidx, List.take_succ_cons]
      · have hct : ¬(4 ≤ t.length ∧ t.drop (t.length - 4) = mp4Chars) := by
          rintro ⟨h1, h2⟩
          apply hc
          refine ⟨by simp only [List.length_cons]; omega, ?_⟩
          have hidx : (c :: t).length - 4 = (t.length - 4) + 1 := by
            simp only [List.length_cons]
            omega
          rw [hidx, List.drop_succ_cons]
          exact h2
        rw [if_neg hct, if_neg hc]

/-- In the guarded forms, the in-flight count tracks the loading flag. -/
theorem guarded_loading_invariant (evs : List CallEv) (s : CallCtl)
    (h : s.inFlight = if s.loading then 1 else 0) :
    (runCtl guardedStep s evs).inFlight
      = if (runCtl guardedStep s evs).loading then 1 else 0 := by
  induction evs generalizing s with
  | nil => exact h
  | cons e t ih =>
    have hstep : (guardedStep s e).inFlight
        = if (guardedStep s e).loading then 1 else 0 := by
      cases e with
      | trigger =>
        by_cases hl : s.loading
        · simpa [guardedStep, guardedTrigger, hl] using h
        · simp only [guardedStep, guardedTrigger, if_neg hl]
          simp [h, hl]
      | resolve =>
        by_cases hz : s.inFlight = 0
        · simpa [guardedStep, ctlResolve, hz] using h
        · have hl : s.loading = true := by
            by_contra hc
            simp only [Bool.not_eq_true] at hc
            rw [hc] at h
            simp at h
            exact hz h
          simp only [guardedStep, ctlResolve, if_neg hz]
          simp [h, hl]
    have : runCtl guardedStep s (e :: t) = runCtl guardedStep (guardedStep s e) t := rfl
    rw [this]
    exact ih _ hstep

/-- Setting an entry of an all-closed list to closed keeps it all closed. -/
theorem allClosed_set (l : List ConnStatus) (i : Nat)
    (h : l.all (fun c => c == ConnStatus.closed) = true) :
    (l.set i ConnStatus.closed).all (fun c => c == ConnStatus.closed) = true := by
  induction l generalizing i with
  | nil => simp
  | cons a t ih =>
    cases i with
    | zero =>
      simp only [List.set]
      simp only [List.all_cons, Bool.and_eq_true] at h ⊢
      exact ⟨by decide, h.2⟩
    | succ n =>
      simp only [List.set]
      simp only [List.all_cons, Bool.and_eq_true] at h ⊢
      exact ⟨h.1, ih n h.2⟩

/-- A halted supervisor stays halted and performs no further connection
attempt, terminal notification or delivery, whatever events arrive. -/
theorem streamHalted_step (s : StreamState) (e : StreamEv)
    (h : streamHalted s = true) :
    streamHalted (streamStep s e) = true
    ∧ (streamStep s e).conns.length = s.conns.length
    ∧ (streamStep s e).terminalErrors = s.terminalErrors
    ∧ (streamStep s e).deliveries = s.deliveries := by
  have hall : ∀ i x, connAt s i = some x → x = ConnStatus.closed := by
    intro i x hx
    have hmem : x ∈ s.conns := List.get?_mem hx
    have := List.all_eq_true.mp ((Bool.and_eq_true _ _).mp h).1 x hmem
    simpa using this
  have hpend : s.pendingDelay = none := by
    have := ((Bool.and_eq_true _ _).mp h).2
    exact Option.isNone_iff_eq_none.mp this
  cases e with
  | connOpened i =>
    have hne : ¬ connAt s i = some ConnStatus.connecting := by
      intro hx
      exact absurd (hall i _ hx) (by decide)
    simp [streamStep, hne, h]
  | connMessage i =>
    have hne : ¬ connAt s i = some ConnStatus.opened := by
      intro hx
      exact absurd (hall i _ hx) (by decide)
    simp [streamStep, hne, h]
  | connError i =>
    have hne : ¬ (connAt s i = some ConnStatus.connecting
        ∨ connAt s i = some ConnStatus.opened) := by
      rintro (hx | hx) <;> exact absurd (hall i _ hx) (by decide)
    simp [streamStep, hne, h]
  | timerFire =>
    simp [streamStep, hpend, h]
  | cleanup =>
    refine ⟨?_, by simp [streamStep], by simp [streamStep], by simp [streamStep]⟩
    simp only [streamStep, streamHalted, Bool.and_eq_true] at h ⊢
    exact ⟨allClosed_set _ _ h.1, by simp⟩

/-- A halted supervisor makes no further attempts and emits no further
terminal notifications over any event sequence. -/
theorem streamHalted_run (s : StreamState) (evs : List StreamEv)
    (h : streamHalted s = true) :
    (runStream s evs).conns.length = s.conns.length
    ∧ (runStream s evs).terminalErrors = s.terminalErrors
    ∧ (runStream s evs).deliveries = s.deliveries := by
  induction evs generalizing s with
  | nil => exact ⟨rfl, rfl, rfl⟩
  | cons e t ih =>
    obtain ⟨h1, h2, h3, h4⟩ := streamHalted_step s e h
    have hrun : runStream s (e :: t) = runStream (streamStep s e) t := rfl
    obtain ⟨g1, g2, g3⟩ := ih (streamStep s e) h1
    rw [hrun]
    exact ⟨g1.trans h2, g2.trans h3, g3.trans h4⟩

/-! ## Claims -/

/-- C1: the claim says that after the stream handle is released no
further status update is delivered for the abandoned job, even if a
reconnection was in flight at the moment of departure. The code
violates it: the effect cleanup clears the pending timer and closes
the connection captured at mount (index 0) but never closes a
reconnected connection created by the retry timer. On the trace
`leakTrace` (initial connection fails, timer fires and reconnects, the
reconnection opens, the stage is left and the cleanup runs, a message
arrives) the reconnected connection is still open after the release
and its message handler fires: the delivery is recorded with the
released flag set. The timer-only race is defended (second conjunct):
cleanup while only the timer is in flight yields no delivery. -/
theorem c1_post_release_delivery :
    ((runStream streamMountInit leakTrace).released = true
      ∧ (runStream streamMountInit leakTrace).deliveries = [(1, true)]
      ∧ deliveredAfterRelease (runStream streamMountInit leakTrace) = true
      ∧ connAt (runStream streamMountInit
          [.connError 0, .timerFire, .connOpened 1, .cleanup]) 1
          = some ConnStatus.opened)
    ∧ (runStream streamMountInit timerClearedTrace).deliveries = [] := by
  decide

/-- C3: a connection open acknowledgment resets the retry counter to
zero (first conjunct); an error arriving when the retry counter already
equals the maximum of 3 — the 4th consecutive failure — emits exactly
one terminal stream-error notification, opens no new connection and
schedules nothing (second conjunct); a halted supervisor (all
connections closed, no pending timer) never attempts another connection
or emits another terminal notification on any further events, i.e.
until the user-triggered restart remounts the effect (third conjunct);
and on the concrete four-consecutive-failure trace exactly one terminal
notification is emitted after the initial attempt plus 3 retries, and
the supervisor is halted (fourth conjunct). -/
theorem c3_retry_reset_and_terminal :
    (∀ (s : StreamState) (i : Nat), connAt s i = some ConnStatus.connecting →
        (streamStep s (.connOpened i)).retryCount = 0)
    ∧ (∀ (s : StreamState) (i : Nat),
        connAt s i = some ConnStatus.connecting ∨ connAt s i = some ConnStatus.opened →
        s.retryCount = maxRetries →
          (streamStep s (.connError i)).terminalErrors = s.terminalErrors + 1
          ∧ (streamStep s (.connError i)).conns.length = s.conns.length
          ∧ (streamStep s (.connError i)).pendingDelay = s.pendingDelay)
    ∧ (∀ (s : StreamState) (evs : List StreamEv), streamHalted s = true →
        (runStream s evs).conns.length = s.conns.length
        ∧ (runStream s evs).terminalErrors = s.terminalErrors)
    ∧ ((runStream streamMountInit fourFailTrace).terminalErrors = 1
      ∧ (runStream streamMountInit fourFailTrace).conns.length = 4
      ∧ streamHalted (runStream streamMountInit fourFailTrace) = true) := by
  refine ⟨?_, ?_, ?_, by decide⟩
  · intro s i h
    simp [streamStep, h]
  · intro s i h1 h2
    have hlt : ¬ s.retryCount < maxRetries := by
      rw [h2]
      exact Nat.lt_irrefl _
    simp only [streamStep]
    rw [if_pos h1, if_neg hlt]
    simp
  · intro s evs h
    exact ⟨(streamHalted_run s evs h).1, (streamHalted_run s evs h).2.1⟩

/-- C3 witness: the open acknowledgment of the first reconnection resets
the counter; the 4th consecutive failure (counter at 3) emits one
terminal notification with no new attempt; and a halted supervisor
ignores further timer and error events. -/
theorem c3_witness :
    ((streamStep (runStream streamMountInit [.connError 0, .timerFire])
        (.connOpened 1)).retryCount = 0)
    ∧ ((streamStep (runStream streamMountInit
          [.connError 0, .timerFire, .connError 1, .timerFire,
           .connError 2, .timerFire]) (.connError 3)).terminalErrors
        = (runStream streamMountInit
          [.connError 0, .timerFire, .connError 1, .timerFire,
           .connError 2, .timerFire]).terminalErrors + 1)
    ∧ ((runStream (runStream streamMountInit fourFailTrace)
          [.timerFire, .connError 3, .cleanup]).terminalErrors
        = (runStream streamMountInit fourFailTrace).terminalErrors) :=
  ⟨c3_retry_reset_and_terminal.1 _ 1 (by decide),
   (c3_retry_reset_and_terminal.2.1 _ 3 (by decide) (by decide)).1,
   (c3_retry_reset_and_terminal.2.2.1 _ _ (by decide)).2⟩

/-- C4: when the held update reports terminal success with at least one
artifact, the "Continue to Upload" action is enabled and taking it
stores the update's video list as `finishedVideos`, moves the
orchestrator from job-status to upload-reels, and runs the effect
cleanup (the release of the stream handle) exactly once (first
conjunct); the spec's concrete scenario — `generating, progress 40`
followed by `finished, ["out/a.mp4"]`, then continuing — ends at
upload-reels with `finishedVideos = ["out/a.mp4"]` and exactly one
release (second conjunct). -/
theorem c4_completion :
    (∀ (sess : JobStatusSession) (u : JobStreamUpdate),
        sess.status = some u → continueEnabled sess = true →
          (sessionStep sess .continueToUpload).app.finishedVideos = u.finished_videos
          ∧ (sessionStep sess .continueToUpload).app.currentStep = .uploadReels
          ∧ (sessionStep sess .continueToUpload).stream.releases
              = sess.stream.releases + 1)
    ∧ ((runSession sessionStartEx completionTrace).app.finishedVideos = ["out/a.mp4"]
      ∧ (runSession sessionStartEx completionTrace).app.currentStep = .uploadReels
      ∧ (runSession sessionStartEx completionTrace).stream.releases = 1) := by
  refine ⟨?_, by decide⟩
  intro sess u h1 h2
  simp [sessionStep, h2, h1, handleJobComplete, streamStep]

/-- C4 witness: in the session reached by the scenario's two deliveries,
continuing yields exactly the claimed effects. -/
theorem c4_witness :
    (sessionStep (runSession sessionStartEx
        [.deliver 0 genUpdate, .deliver 0 finUpdate])
        .continueToUpload).app.finishedVideos = finUpdate.finished_videos
    ∧ (sessionStep (runSession sessionStartEx
        [.deliver 0 genUpdate, .deliver 0 finUpdate])
        .continueToUpload).app.currentStep = .uploadReels
    ∧ (sessionStep (runSession sessionStartEx
        [.deliver 0 genUpdate, .deliver 0 finUpdate])
        .continueToUpload).stream.releases
      = (runSession sessionStartEx
        [.deliver 0 genUpdate, .deliver 0 finUpdate]).stream.releases + 1 :=
  c4_completion.1 _ finUpdate (by decide) (by decide)

/-- C5 counterexample: in the concrete upload-reels state with
`jobId = some "j1"`, the back-navigation to job-status remounts
`JobStatusStream`, whose effect opens one new stream connection —
refuting the claim that no new stream connection for the jobId is
opened as a result of this back-navigation. -/
theorem c5_counterexample :
    connectionsOpenedOnEntry (handleBackToJobStatus appAtUploadReelsEx) ≠ 0
    ∧ connectionsOpenedOnEntry (handleBackToJobStatus appAtUploadReelsEx) = 1 := by
  decide

/-- C5 (amended): the backward transition from upload-reels to
job-status preserves all stage state — `jobId`, `finishedVideos`,
`selectedHighlights` (and `highlights`, `reelLinks`) are unchanged —
but whenever the preserved `jobId` is truthy, re-entering job-status
mounts the stream component, which opens exactly one new stream
connection for that job id (a fresh session; the prior stream session
is not resumed). -/
theorem c5_back_preserves_state (s : AppState) :
    (handleBackToJobStatus s).jobId = s.jobId
    ∧ (handleBackToJobStatus s).finishedVideos = s.finishedVideos
    ∧ (handleBackToJobStatus s).selectedHighlights = s.selectedHighlights
    ∧ (handleBackToJobStatus s).highlights = s.highlights
    ∧ (handleBackToJobStatus s).reelLinks = s.reelLinks
    ∧ (handleBackToJobStatus s).currentStep = .jobStatus
    ∧ (jobTruthy s.jobId = true →
        connectionsOpenedOnEntry (handleBackToJobStatus s) = 1) := by
  refine ⟨rfl, rfl, rfl, rfl, rfl, rfl, ?_⟩
  intro h
  simp [connectionsOpenedOnEntry, jobStatusStreamMounted, handleBackToJobStatus,
    h, streamMountInit]

/-- C5 witness: the preserved job id is truthy in the concrete
upload-reels state and back-navigation opens one connection. -/
theorem c5_witness :
    jobTruthy appAtUploadReelsEx.jobId = true
    ∧ connectionsOpenedOnEntry (handleBackToJobStatus appAtUploadReelsEx) = 1 :=
  ⟨by decide,
   (c5_back_preserves_state appAtUploadReelsEx).2.2.2.2.2.2 (by decide)⟩

/-- C6 counterexample: the highlights-select generation trigger has no
in-flight guard (no disabled state on the button, no guard in
`handleGenerateVideos`), so two triggers before the first call resolves
put two remote calls in flight — refuting "at most one in-flight remote
call per stage, for every stage". -/
theorem c6_counterexample :
    ¬ (runCtl generateStep ctlInit [.trigger, .trigger]).inFlight ≤ 1 := by
  decide

/-- C6 (amended): for the stages whose triggers are disabled while their
call is in flight — url-submit, upload-reels and dm-followers — any
sequence of trigger/resolve events keeps at most one remote call in
flight, a second trigger while the first is unresolved being a no-op;
the highlights-select generation trigger has no such guard and a second
trigger while the first is unresolved issues a second remote call. -/
theorem c6_single_inflight :
    (∀ evs : List CallEv, (runCtl guardedStep ctlInit evs).inFlight ≤ 1)
    ∧ (runCtl generateStep ctlInit [.trigger, .trigger]).inFlight = 2 := by
  refine ⟨?_, by decide⟩
  intro evs
  have h := guarded_loading_invariant evs ctlInit (by decide)
  rw [h]
  split <;> simp

/-- C7: every connection failure arriving with the retry counter below
the maximum of 3 schedules the n-th reconnection (`n = retryCount + 1`)
after `n` backoff units of 2000 ms — linear in the attempt number
(first conjunct); on the concrete trace of three consecutive failures
the scheduled delays are exactly one, two and three units (second
conjunct). -/
theorem c7_linear_backoff :
    (∀ (s : StreamState) (i : Nat),
        connAt s i = some ConnStatus.connecting ∨ connAt s i = some ConnStatus.opened →
        s.retryCount < maxRetries →
          (streamStep s (.connError i)).pendingDelay
            = some (backoffUnitMs * (s.retryCount + 1)))
    ∧ (runStream streamMountInit threeFailTrace).scheduledDelays
        = [backoffUnitMs * 1, backoffUnitMs * 2, backoffUnitMs * 3] := by
  refine ⟨?_, by decide⟩
  intro s i h1 h2
  simp only [streamStep]
  rw [if_pos h1, if_pos h2]

/-- C7 witness: the very first failure schedules the first reconnection
after one backoff unit. -/
theorem c7_witness :
    (streamStep streamMountInit (.connError 0)).pendingDelay
      = some (backoffUnitMs * (streamMountInit.retryCount + 1)) :=
  c7_linear_backoff.1 _ 0 (by decide) (by decide)

/-- C8: for each of the three forward-transition remote calls
(extraction, generation start, upload), any failed outcome — typed
non-success response, network error, or unknown — leaves the campaign
state (hence `stage`) unchanged and surfaces exactly one error string;
the handler remains triggerable, so the user may retry. -/
theorem c8_failure_leaves_stage :
    (∀ (s : AppState) (u l : String) (n : Bool)
        (r : CallOutcome HighlightsResponse), r.isFailure = true →
          (handleSubmitResult s u l n r).1 = s
          ∧ (handleSubmitResult s u l n r).2.isSome = true)
    ∧ (∀ (s : AppState) (sel : List HighlightSegment)
        (r : CallOutcome GenerateVideoResponse), r.isFailure = true →
          (handleGenerateVideosResult s sel r).1 = s
          ∧ (handleGenerateVideosResult s sel r).2.isSome = true)
    ∧ (∀ (s : AppState) (r : CallOutcome UploadReelsResponse),
        r.isFailure = true →
          (handleUploadResult s r).1 = s
          ∧ (handleUploadResult s r).2.isSome = true) := by
  refine ⟨?_, ?_, ?_⟩
  · intro s u l n r hr
    cases r with
    | success v => simp [CallOutcome.isFailure] at hr
    | apiFailure st m => exact ⟨rfl, rfl⟩
    | networkFailure m => exact ⟨rfl, rfl⟩
    | unknownFailure => exact ⟨rfl, rfl⟩
  · intro s sel r hr
    cases r with
    | success v => simp [CallOutcome.isFailure] at hr
    | apiFailure st m => exact ⟨rfl, rfl⟩
    | networkFailure m => exact ⟨rfl, rfl⟩
    | unknownFailure => exact ⟨rfl, rfl⟩
  · intro s r hr
    cases r with
    | success v => simp [CallOutcome.isFailure] at hr
    | apiFailure st m => exact ⟨rfl, rfl⟩
    | networkFailure m => exact ⟨rfl, rfl⟩
    | unknownFailure => exact ⟨rfl, rfl⟩

/-- C8 witness: concrete network failures of the three calls leave the
concrete job-status state unchanged and each surface one error string. -/
theorem c8_witness :
    ((handleSubmitResult appAtJobStatusEx "u" "en" false
        (.networkFailure "boom")).1 = appAtJobStatusEx
      ∧ (handleSubmitResult appAtJobStatusEx "u" "en" false
        (.networkFailure "boom")).2.isSome = true)
    ∧ ((handleGenerateVideosResult appAtJobStatusEx [hookSeg]
        (.apiFailure 500 "oops")).1 = appAtJobStatusEx
      ∧ (handleGenerateVideosResult appAtJobStatusEx [hookSeg]
        (.apiFailure 500 "oops")).2.isSome = true)
    ∧ ((handleUploadResult appAtJobStatusEx
        (.unknownFailure)).1 = appAtJobStatusEx
      ∧ (handleUploadResult appAtJobStatusEx
        (.unknownFailure)).2.isSome = true) :=
  ⟨c8_failure_leaves_stage.1 _ _ _ _ _ (by decide),
   c8_failure_leaves_stage.2.1 _ _ _ (by decide),
   c8_failure_leaves_stage.2.2 _ _ (by decide)⟩

/-- C9 counterexample: the claim's rule fails on the code in two ways.
For the path `"out_a.mp4b.mp4"` (no selected highlights) the source
computes `"Ab.mp4"` — it removes the first occurrence of `".mp4"`
anywhere in the basename — whereas the claim's suffix-stripping rule
yields `"A.mp4b"`. And for the path `"out/out_h1.mp4"` with a matched
highlight whose title is the empty string, the source's truthiness
check (`if (highlightTitle)`) takes the cleaned-filename fallback
`"H1"` whereas the claim's rule returns the matched (empty) title. -/
theorem c9_counterexample :
    initialTitleFor [] "out_a.mp4b.mp4" ≠ specInitialTitleFor [] "out_a.mp4b.mp4"
    ∧ initialTitleFor [emptyTitleSeg] "out/out_h1.mp4"
        ≠ specInitialTitleFor [emptyTitleSeg] "out/out_h1.mp4" := by
  decide

/-- C9 (amended): for every finished video path whose basename contains
`".mp4"` at most as a terminal suffix (the first occurrence, if any, is
at the very end), the initial upload title follows the convention: the
basename with the `".mp4"` suffix and the `"out_"` marker stripped is
matched against the selected highlights' identifiers — on a match with
a non-empty title that highlight's title is used, otherwise (no match,
or a matched but empty title, which JavaScript truthiness treats like
no match) the stripped name with underscores replaced by spaces and
the first character capitalized. -/
theorem c9_title_convention (selectedHighlights : List HighlightSegment)
    (path : String)
    (h : onlyTerminalMp4 (basenameChars path.toList) = true) :
    initialTitleFor selectedHighlights path
      = specAmendedTitleFor selectedHighlights path := by
  simp only [initialTitleFor, specAmendedTitleFor,
    replaceFirst_eq_stripSuffixMp4 h]

/-- C9 witness: the path `"out/out_h1.mp4"` matched against the
non-empty-titled highlight `h1` yields that highlight's title `"Hook"`
under both the source computation and the amended rule; matched against
the empty-titled highlight it yields the fallback `"H1"` under both. -/
theorem c9_witness :
    onlyTerminalMp4 (basenameChars ("out/out_h1.mp4").toList) = true
    ∧ initialTitleFor [hookSeg] "out/out_h1.mp4"
        = specAmendedTitleFor [hookSeg] "out/out_h1.mp4"
    ∧ initialTitleFor [hookSeg] "out/out_h1.mp4" = "Hook"
    ∧ initialTitleFor [emptyTitleSeg] "out/out_h1.mp4"
        = specAmendedTitleFor [emptyTitleSeg] "out/out_h1.mp4"
    ∧ initialTitleFor [emptyTitleSeg] "out/out_h1.mp4" = "H1" :=
  ⟨by decide, c9_title_convention [hookSeg] "out/out_h1.mp4" (by decide),
   by decide,
   c9_title_convention [emptyTitleSeg] "out/out_h1.mp4" (by decide),
   by decide⟩

/-- C10: whenever the upload action can be triggered (the form is not in
its empty early-return branch, the selection is non-empty so the button
is rendered, and no call is loading), the `reels_to_upload` list sent is
non-empty and every entry carries a non-empty title — an empty edited
title falls back to `"Generated Short"` (first conjunct); with zero
finished videos or zero selected videos the upload action cannot be
triggered at all (second conjunct). -/
theorem c10_upload_request :
    (∀ s : UploadFormState, uploadButtonEnabled s = true →
        0 < (reelsToUpload s).length
        ∧ (reelsToUpload s).all (fun r => !(r.title == "")) = true)
    ∧ (∀ s : UploadFormState,
        s.finishedVideos = [] ∨ s.selectedVideos = [] →
          uploadButtonEnabled s = false) := by
  constructor
  · intro s hs
    have hsel : s.selectedVideos ≠ [] := by
      intro hnil
      simp [uploadButtonEnabled, uploadButtonVisible, hnil] at hs
    constructor
    · simpa [reelsToUpload] using List.length_pos.mpr hsel
    · rw [List.all_eq_true]
      intro r hr
      simp only [reelsToUpload, List.mem_map] at hr
      obtain ⟨p, _, rfl⟩ := hr
      cases hT : titlesGet s.titles p with
      | none => simp [hT]
      | some t =>
        simp only [hT]
        by_cases ht : t == ""
        · simp [ht]
        · simp [ht]
  · intro s h
    cases h with
    | inl h => simp [uploadButtonEnabled, uploadButtonVisible, h]
    | inr h => simp [uploadButtonEnabled, uploadButtonVisible, h]

/-- C10 witness: the concrete form state with one selected video whose
edited title is empty can trigger the upload, and the request holds one
entry with the fallback title. -/
theorem c10_witness :
    uploadButtonEnabled uploadFormEx = true
    ∧ (0 < (reelsToUpload uploadFormEx).length
      ∧ (reelsToUpload uploadFormEx).all (fun r => !(r.title == "")) = true) :=
  ⟨by decide, c10_upload_request.1 uploadFormEx (by decide)⟩

end Yapper
